import Mathlib

/-!
Verification of the grounded-query client in `financial_analyzer.py`.

The only non-trivial logic of the repository is `fetch_gemini_response`,
a bounded-retry HTTP client with exponential backoff and JSON response
extraction.  We embed it shallowly: Python JSON values become the
inductive `JValue`; the dictionary/list accessors the code uses
(`dict.get` with default, subscripting, truthiness tests, iteration)
become functions in an `Except PyFault` monad that record exactly which
Python exceptions each operation can raise; the retry loop becomes a
structurally recursive function over the remaining attempt count, which
additionally records the backoff sleeps performed, the number of
attempts made, and which exit produced the result.
-/

namespace FinancialAnalyzer

/-- A Python value as produced by `json.loads`: the JSON fragment of
Python's data model (None, bool, int, str, list, dict with string keys). -/
inductive JValue where
  | null : JValue
  | bool : Bool → JValue
  | num : Int → JValue
  | str : String → JValue
  | arr : List JValue → JValue
  | obj : List (String × JValue) → JValue

/-- The Python exceptions the extraction code can raise. -/
inductive PyFault where
  | indexError : PyFault
  | attributeError : PyFault
  | typeError : PyFault
  | keyError : PyFault
deriving DecidableEq, Repr

/-- Python `d.get(key, default)` — works on dicts only; on any other
value Python raises AttributeError (no `get` attribute). -/
def pyGetD (v : JValue) (key : String) (default : JValue) : Except PyFault JValue :=
  match v with
  | .obj fields => .ok ((fields.lookup key).getD default)
  | _ => .error .attributeError

/-- Python `d.get(key)` — default `None`. -/
def pyGet (v : JValue) (key : String) : Except PyFault JValue :=
  pyGetD v key .null

/-- Python `v[0]`: first element of a list (IndexError when empty),
first character of a string (IndexError when empty), KeyError on a
dict without an integer key, TypeError otherwise. -/
def pyIndexZero (v : JValue) : Except PyFault JValue :=
  match v with
  | .arr (x :: _) => .ok x
  | .arr [] => .error .indexError
  | .str s => if s.isEmpty then .error .indexError else .ok (.str (s.take 1))
  | .obj _ => .error .keyError
  | _ => .error .typeError

/-- Python `v[key]` for a string key: dict lookup raising KeyError when
absent; TypeError on non-dict values (list/str indices must be integers). -/
def pySubscript (v : JValue) (key : String) : Except PyFault JValue :=
  match v with
  | .obj fields =>
    match fields.lookup key with
    | some x => .ok x
    | none => .error .keyError
  | _ => .error .typeError

/-- Python truthiness of a JSON value. -/
def pyTruthy : JValue → Bool
  | .null => false
  | .bool b => b
  | .num n => n ≠ 0
  | .str s => ¬ s.isEmpty
  | .arr xs => ¬ xs.isEmpty
  | .obj fields => ¬ fields.isEmpty

/-- Python `for x in v`: elements of a list, characters of a string,
keys of a dict; TypeError on non-iterables. -/
def pyIter (v : JValue) : Except PyFault (List JValue) :=
  match v with
  | .arr xs => .ok xs
  | .str s => .ok (s.toList.map (fun c => .str (String.singleton c)))
  | .obj fields => .ok (fields.map (fun p => .str p.1))
  | _ => .error .typeError

/-- The filter condition of the list comprehension (source line 63):
`attr.get('web', {}).get('uri') and attr.get('web', {}).get('title')`.
Python `and` short-circuits, so the title side is only evaluated when
the uri side is truthy; each side re-evaluates `attr.get('web', {})`. -/
def attrCond (attr : JValue) : Except PyFault Bool := do
  let w ← pyGetD attr "web" (.obj [])
  let uri ← pyGetD w "uri" .null
  if pyTruthy uri then
    let w2 ← pyGetD attr "web" (.obj [])
    let title ← pyGetD w2 "title" .null
    pure (pyTruthy title)
  else
    pure false

/-- The element expression of the comprehension (source lines 58-61):
the dict with the title computed first, then the uri. -/
def attrElem (attr : JValue) : Except PyFault (JValue × JValue) := do
  let w ← pyGetD attr "web" (.obj [])
  let title ← pyGetD w "title" .null
  let w2 ← pyGetD attr "web" (.obj [])
  let uri ← pyGetD w2 "uri" .null
  pure (title, uri)

/-- The list comprehension of source lines 57-64: for each attribution,
evaluate the condition and, when it holds, the element. -/
def buildSources : List JValue → Except PyFault (List (JValue × JValue))
  | [] => .ok []
  | attr :: rest => do
    let c ← attrCond attr
    if c then
      let e ← attrElem attr
      let others ← buildSources rest
      pure (e :: others)
    else
      buildSources rest

/-- Source lines 54-64: `sources = []`, then when
`candidate.get('groundingMetadata')` is truthy and its
`.get('groundingAttributions')` is truthy, the comprehension over
`grounding_metadata['groundingAttributions']` replaces `sources`. -/
def groundingPart (candidate : JValue) : Except PyFault (List (JValue × JValue)) := do
  let gm ← pyGet candidate "groundingMetadata"
  if pyTruthy gm then
    let ga ← pyGet gm "groundingAttributions"
    if pyTruthy ga then
      let gav ← pySubscript gm "groundingAttributions"
      let attrs ← pyIter gav
      buildSources attrs
    else
      pure []
  else
    pure []

/-- Source lines 51-64: extraction of the answer text and citation list
from the decoded status-200 body.
`candidate = result.get('candidates', [{}])[0]`;
`text = candidate.get('content', {}).get('parts', [{}])[0]
        .get('text', 'No analysis generated.')`;
then the sources block. -/
def extractResult (result : JValue) :
    Except PyFault (JValue × List (JValue × JValue)) := do
  let cands ← pyGetD result "candidates" (.arr [.obj []])
  let candidate ← pyIndexZero cands
  let content ← pyGetD candidate "content" (.obj [])
  let parts ← pyGetD content "parts" (.arr [.obj []])
  let part0 ← pyIndexZero parts
  let text ← pyGetD part0 "text" (.str "No analysis generated.")
  let sources ← groundingPart candidate
  pure (text, sources)

/-- What one attempt observes from the environment: the endpoint
answered with some HTTP status and (decoded) body, or `urlopen`/decoding
raised an `HTTPError` with some code, or some other exception was raised
during the attempt (connection failure, timeout, decode error, ...). -/
inductive AttemptEvent where
  | httpStatus : Nat → JValue → AttemptEvent
  | raisedHTTPError : Nat → AttemptEvent
  | raisedOther : AttemptEvent

/-- A fault escaping the `try` block of one attempt. -/
inductive AttemptFault where
  | httpError : Nat → AttemptFault
  | exc : PyFault → AttemptFault
  | netFault : AttemptFault
deriving DecidableEq, Repr

/-- `except HTTPError as e` (source line 68): matches exactly the
HTTPError faults, binding `e.code`. -/
def matchHTTPError : AttemptFault → Option Nat
  | .httpError code => some code
  | _ => none

/-- `except Exception` (source line 76): in Python every fault the
attempt can raise — HTTPError (an OSError), IndexError, AttributeError,
TypeError, KeyError, URLError, timeout, JSONDecodeError — is an
instance of `Exception`, so this handler matches them all. -/
def isExceptionInstance : AttemptFault → Bool
  | .httpError _ => true
  | .exc _ => true
  | .netFault => true

/-- The `try` block of one attempt (source lines 34-66): on a response,
raise `HTTPError(code = status)` when the status is not 200, otherwise
extract; extraction faults and non-HTTP faults escape as themselves. -/
def runAttempt (ev : AttemptEvent) :
    Except AttemptFault (JValue × List (JValue × JValue)) :=
  match ev with
  | .httpStatus status body =>
    if status ≠ 200 then .error (.httpError status)
    else
      match extractResult body with
      | .ok r => .ok r
      | .error f => .error (.exc f)
  | .raisedHTTPError code => .error (.httpError code)
  | .raisedOther => .error .netFault

/-- Which exit of `fetch_gemini_response` produced the result. -/
inductive ExitKind where
  | success : ExitKind
  | httpFailure : ExitKind
  | excFailure : ExitKind
  | exhausted : ExitKind
deriving DecidableEq, Repr

/-- The observable outcome of a call: the returned pair plus a trace of
the backoff sleeps performed (in order, in abstract time units) and the
number of attempts made. -/
structure FetchResult where
  answer : JValue
  citations : List (JValue × JValue)
  exitKind : ExitKind
  sleeps : List Nat
  attempts : Nat

/-- `e.code in [429, 500, 503]` (source line 70). -/
def retryableCodes : List Nat := [429, 500, 503]

/-- The `for attempt in range(max_retries)` loop (source lines 33-80),
structurally recursive on the number of remaining iterations
(`fuel = max_retries - attempt`).  On success return the extracted pair;
on an HTTPError with `attempt < max_retries - 1` (equivalently
`attempt + 1 < max_retries` over the integers) and a retryable code,
sleep `2 ^ attempt` and continue; otherwise return the sentinel
`("Error fetching analysis.", [])`; any fault matched by
`except Exception` returns the same sentinel; a fault matched by no
handler would propagate as `.error`.  When the loop exhausts its
iterations, return `("Max retries reached. Could not complete the
request.", [])`. -/
def fetchLoop (env : Nat → AttemptEvent) (max_retries : Nat) :
    Nat → Nat → List Nat → Except AttemptFault FetchResult
  | 0, attempt, sleeps =>
    .ok ⟨.str "Max retries reached. Could not complete the request.", [],
      .exhausted, sleeps, attempt⟩
  | fuel + 1, attempt, sleeps =>
    match runAttempt (env attempt) with
    | .ok (text, sources) => .ok ⟨text, sources, .success, sleeps, attempt + 1⟩
    | .error f =>
      match matchHTTPError f with
      | some code =>
        if attempt + 1 < max_retries ∧ code ∈ retryableCodes then
          fetchLoop env max_retries fuel (attempt + 1) (sleeps ++ [2 ^ attempt])
        else
          .ok ⟨.str "Error fetching analysis.", [], .httpFailure, sleeps, attempt + 1⟩
      | none =>
        if isExceptionInstance f then
          .ok ⟨.str "Error fetching analysis.", [], .excFailure, sleeps, attempt + 1⟩
        else
          .error f

/-- `fetch_gemini_response` (source lines 15-80), abstracted over the
behaviour `env` of the remote endpoint at each attempt index.
`max_retries` is a Python integer; `range(max_retries)` is empty when it
is non-positive, which `Int.toNat` captures. -/
def fetch_gemini_response (env : Nat → AttemptEvent) (max_retries : Int) :
    Except AttemptFault FetchResult :=
  fetchLoop env max_retries.toNat max_retries.toNat 0 []

/-- An endpoint behaviour answering status 429 on every attempt. -/
def env429 : Nat → AttemptEvent := fun _ => .httpStatus 429 (.obj [])

/-- An endpoint behaviour raising an HTTPError with code 404 on every
attempt. -/
def env404 : Nat → AttemptEvent := fun _ => .raisedHTTPError 404

/-! ## Derived description of the extraction -/

/-- The fields of `attr.get('web', {})` for an attribution that is an
object whose "web" entry, when present, is an object. -/
def webFieldsOf (a : JValue) : List (String × JValue) :=
  match a with
  | .obj afs =>
    match afs.lookup "web" with
    | some (.obj wfs) => wfs
    | _ => []
  | _ => []

/-- The title field the comprehension reads from an attribution. -/
def titleOf (a : JValue) : JValue :=
  ((webFieldsOf a).lookup "title").getD .null

/-- The uri field the comprehension reads from an attribution. -/
def uriOf (a : JValue) : JValue :=
  ((webFieldsOf a).lookup "uri").getD .null

/-- The comprehension filter: the uri is truthy and the title is
truthy (for strings, truthy means non-empty). -/
def attrGood (a : JValue) : Bool :=
  pyTruthy (uriOf a) && pyTruthy (titleOf a)

/-- The citations the comprehension produces: the attributions passing
the filter, in their original order, mapped to their (title, uri). -/
def sourcesOf (attrs : List JValue) : List (JValue × JValue) :=
  (attrs.filter attrGood).map (fun a => (titleOf a, uriOf a))

/-- Attribution shapes on which the comprehension cannot fault: an
object whose "web" entry, when present, is an object. -/
def attrWF (a : JValue) : Prop :=
  ∃ afs, a = .obj afs ∧
    (afs.lookup "web" = none ∨ ∃ wfs, afs.lookup "web" = some (.obj wfs))


/-! ## Concrete bodies and environments used in witnesses -/

/-- The spec's citation-filter example: three grounding attributions,
of which only the first has both a non-empty title and a non-empty uri. -/
def exAttrs : List JValue :=
  [.obj [("web", .obj [("title", .str "A"), ("uri", .str "u1")])],
   .obj [("web", .obj [("title", .str ""), ("uri", .str "u2")])],
   .obj [("web", .obj [])]]


/-- The single text part of a canonical well-formed response. -/
def mkPart (t : String) : List (String × JValue) := [("text", .str t)]

/-- The fields of a canonical well-formed first candidate with answer
text `t` and grounding attributions `attrs`. -/
def mkCand (t : String) (attrs : List JValue) : List (String × JValue) :=
  [("content", .obj [("parts", .arr [.obj (mkPart t)])]),
   ("groundingMetadata", .obj [("groundingAttributions", .arr attrs)])]

/-- A canonical well-formed response body (the inbound shape of the
spec's section 6). -/
def mkBody (t : String) (attrs : List JValue) : JValue :=
  .obj [("candidates", .arr [.obj (mkCand t attrs)])]

/-- A status-200 response whose first candidate lacks "content" but
still carries grounding metadata with one full attribution. -/
def c4body : JValue :=
  .obj [("candidates", .arr [.obj [("groundingMetadata",
    .obj [("groundingAttributions", .arr [.obj [("web",
      .obj [("title", .str "A"), ("uri", .str "u")])]])])]])]

/-- An endpoint behaviour answering status 429 on attempts 0..3 and a
well-formed status-200 response on attempt 4. -/
def envC3 : Nat → AttemptEvent := fun i =>
  if i < 4 then .httpStatus 429 .null
  else .httpStatus 200 (mkBody "Analysis text." exAttrs)

/-- Body shapes in scope of the missing-fields default behaviour: the
object lacks the key "candidates", or its first candidate is an object
lacking "content", or that candidate's "content" is an object lacking
"parts". -/
def missingPieces (body : JValue) : Prop :=
  ∃ fs, body = .obj fs ∧
    (fs.lookup "candidates" = none ∨
     ∃ cfs crest, fs.lookup "candidates" = some (.arr (.obj cfs :: crest)) ∧
       (cfs.lookup "content" = none ∨
        ∃ cofs, cfs.lookup "content" = some (.obj cofs) ∧
          cofs.lookup "parts" = none))

/-- The first candidate of the body, when there is one, carries no
truthy "groundingMetadata" entry. -/
def noGrounding (body : JValue) : Prop :=
  ∀ fs cfs crest, body = .obj fs →
    fs.lookup "candidates" = some (.arr (.obj cfs :: crest)) →
    ∀ g, cfs.lookup "groundingMetadata" = some g → pyTruthy g = false

/-- Grounding metadata shapes of a candidate on which the sources block
cannot fault: either no truthy "groundingMetadata" entry, or an object
one whose "groundingAttributions" is an array of fault-free
attributions. -/
def gmWellFormed (cfs : List (String × JValue)) : Prop :=
  (∀ g, cfs.lookup "groundingMetadata" = some g → pyTruthy g = false) ∨
  (∃ gmfs attrs, cfs.lookup "groundingMetadata" = some (.obj gmfs) ∧
    gmfs.lookup "groundingAttributions" = some (.arr attrs) ∧
    ∀ a ∈ attrs, attrWF a)

/-- Body shapes whose extraction hits `[0]` on an empty list: the
"candidates" value is the empty array, or the first candidate's
"content.parts" is the empty array. -/
def emptyShape (body : JValue) : Prop :=
  ∃ fs, body = .obj fs ∧
    (fs.lookup "candidates" = some (.arr []) ∨
     ∃ cfs crest cofs, fs.lookup "candidates" = some (.arr (.obj cfs :: crest)) ∧
       cfs.lookup "content" = some (.obj cofs) ∧
       cofs.lookup "parts" = some (.arr []))

/-! ## Loop-level lemmas -/

lemma isException_all (f : AttemptFault) : isExceptionInstance f = true := by
  cases f <;> rfl

lemma fetchLoop_retry_step (env : Nat → AttemptEvent) (m attempt fuel : Nat)
    (sleeps : List Nat) (code : Nat) (hmem : code ∈ retryableCodes)
    (hrun : runAttempt (env attempt) = .error (.httpError code))
    (hlt : attempt + 1 < m) :
    fetchLoop env m (fuel + 1) attempt sleeps =
      fetchLoop env m fuel (attempt + 1) (sleeps ++ [2 ^ attempt]) := by
  simp only [fetchLoop, hrun, matchHTTPError]
  rw [if_pos ⟨hlt, hmem⟩]

lemma fetchLoop_http_stop (env : Nat → AttemptEvent) (m attempt fuel : Nat)
    (sleeps : List Nat) (code : Nat)
    (hrun : runAttempt (env attempt) = .error (.httpError code))
    (hstop : ¬ (attempt + 1 < m ∧ code ∈ retryableCodes)) :
    fetchLoop env m (fuel + 1) attempt sleeps =
      .ok ⟨.str "Error fetching analysis.", [], .httpFailure, sleeps, attempt + 1⟩ := by
  simp only [fetchLoop, hrun, matchHTTPError]
  rw [if_neg hstop]

lemma fetchLoop_success_step (env : Nat → AttemptEvent) (m attempt fuel : Nat)
    (sleeps : List Nat) (t : JValue) (cs : List (JValue × JValue))
    (hrun : runAttempt (env attempt) = .ok (t, cs)) :
    fetchLoop env m (fuel + 1) attempt sleeps =
      .ok ⟨t, cs, .success, sleeps, attempt + 1⟩ := by
  simp only [fetchLoop, hrun]

lemma fetchLoop_exc_stop (env : Nat → AttemptEvent) (m attempt fuel : Nat)
    (sleeps : List Nat) (f : AttemptFault)
    (hrun : runAttempt (env attempt) = .error f)
    (hnone : matchHTTPError f = none) :
    fetchLoop env m (fuel + 1) attempt sleeps =
      .ok ⟨.str "Error fetching analysis.", [], .excFailure, sleeps, attempt + 1⟩ := by
  simp only [fetchLoop, hrun, hnone, isException_all, if_true]

lemma toNat_succ_of_pos (m : Int) (hm : 1 ≤ m) : ∃ k, m.toNat = k + 1 :=
  ⟨m.toNat - 1, by omega⟩

lemma fetch_first_success (env : Nat → AttemptEvent) (m : Int) (hm : 1 ≤ m)
    (t : JValue) (cs : List (JValue × JValue))
    (hrun : runAttempt (env 0) = .ok (t, cs)) :
    fetch_gemini_response env m = .ok ⟨t, cs, .success, [], 1⟩ := by
  unfold fetch_gemini_response
  obtain ⟨k, hk⟩ := toNat_succ_of_pos m hm
  rw [hk]
  exact fetchLoop_success_step env (k + 1) 0 k [] t cs hrun

lemma fetch_first_exc (env : Nat → AttemptEvent) (m : Int) (hm : 1 ≤ m)
    (f : AttemptFault) (hrun : runAttempt (env 0) = .error f)
    (hnone : matchHTTPError f = none) :
    fetch_gemini_response env m =
      .ok ⟨.str "Error fetching analysis.", [], .excFailure, [], 1⟩ := by
  unfold fetch_gemini_response
  obtain ⟨k, hk⟩ := toNat_succ_of_pos m hm
  rw [hk]
  exact fetchLoop_exc_stop env (k + 1) 0 k [] f hrun hnone

lemma fetchLoop_isOk (env : Nat → AttemptEvent) (m : Nat) :
    ∀ fuel attempt sleeps, ∃ r, fetchLoop env m fuel attempt sleeps = .ok r := by
  intro fuel
  induction fuel with
  | zero => intro attempt sleeps; exact ⟨_, rfl⟩
  | succ n ih =>
    intro attempt sleeps
    cases hrun : runAttempt (env attempt) with
    | ok p =>
      obtain ⟨t, cs⟩ := p
      exact ⟨_, fetchLoop_success_step env m attempt n sleeps t cs hrun⟩
    | error f =>
      cases f with
      | httpError code =>
        by_cases hc : attempt + 1 < m ∧ code ∈ retryableCodes
        · rw [fetchLoop_retry_step env m attempt n sleeps code hc.2 hrun hc.1]
          exact ih _ _
        · exact ⟨_, fetchLoop_http_stop env m attempt n sleeps code hrun hc⟩
      | exc pf => exact ⟨_, fetchLoop_exc_stop env m attempt n sleeps _ hrun rfl⟩
      | netFault => exact ⟨_, fetchLoop_exc_stop env m attempt n sleeps _ hrun rfl⟩

lemma fetchLoop_not_exhausted (env : Nat → AttemptEvent) (m : Nat) :
    ∀ fuel attempt sleeps r, attempt + fuel = m → 1 ≤ fuel →
      fetchLoop env m fuel attempt sleeps = .ok r → r.exitKind ≠ .exhausted := by
  intro fuel
  induction fuel with
  | zero => intro attempt sleeps r _ hfuel; omega
  | succ n ih =>
    intro attempt sleeps r hsum _
    cases hrun : runAttempt (env attempt) with
    | ok p =>
      obtain ⟨t, cs⟩ := p
      rw [fetchLoop_success_step env m attempt n sleeps t cs hrun]
      intro heq
      cases Except.ok.inj heq
      simp
    | error f =>
      cases f with
      | httpError code =>
        by_cases hc : attempt + 1 < m ∧ code ∈ retryableCodes
        · rw [fetchLoop_retry_step env m attempt n sleeps code hc.2 hrun hc.1]
          exact ih (attempt + 1) (sleeps ++ [2 ^ attempt]) r (by omega) (by omega)
        · rw [fetchLoop_http_stop env m attempt n sleeps code hrun hc]
          intro heq
          cases Except.ok.inj heq
          simp
      | exc pf =>
        rw [fetchLoop_exc_stop env m attempt n sleeps _ hrun rfl]
        intro heq
        cases Except.ok.inj heq
        simp
      | netFault =>
        rw [fetchLoop_exc_stop env m attempt n sleeps _ hrun rfl]
        intro heq
        cases Except.ok.inj heq
        simp


/-! ## Extraction lemmas -/

lemma attrCond_wf (a : JValue) (h : attrWF a) : attrCond a = .ok (attrGood a) := by
  obtain ⟨afs, rfl, hweb⟩ := h
  rcases hweb with hnone | ⟨wfs, hsome⟩
  · simp [attrCond, pyGetD, hnone, attrGood, uriOf, titleOf, webFieldsOf, pyTruthy,
      Bind.bind, Except.bind, Pure.pure, Except.pure]
  · simp only [attrCond, pyGetD, hsome, attrGood, uriOf, titleOf, webFieldsOf,
      Bind.bind, Except.bind, Pure.pure, Except.pure, Option.getD_some]
    by_cases hu : pyTruthy ((wfs.lookup "uri").getD .null) <;> simp [hu]

lemma attrElem_wf (a : JValue) (h : attrWF a) :
    attrElem a = .ok (titleOf a, uriOf a) := by
  obtain ⟨afs, rfl, hweb⟩ := h
  rcases hweb with hnone | ⟨wfs, hsome⟩
  · simp [attrElem, pyGetD, hnone, uriOf, titleOf, webFieldsOf,
      Bind.bind, Except.bind, Pure.pure, Except.pure]
  · simp [attrElem, pyGetD, hsome, uriOf, titleOf, webFieldsOf,
      Bind.bind, Except.bind, Pure.pure, Except.pure]

lemma buildSources_wf (attrs : List JValue) (hwf : ∀ a ∈ attrs, attrWF a) :
    buildSources attrs = .ok (sourcesOf attrs) := by
  induction attrs with
  | nil => rfl
  | cons a rest ih =>
    have hwfa := hwf a (List.mem_cons_self a rest)
    have ihr := ih (fun x hx => hwf x (List.mem_cons_of_mem a hx))
    by_cases hg : attrGood a
    · simp [buildSources, attrCond_wf a hwfa, attrElem_wf a hwfa, hg, ihr,
        sourcesOf, Bind.bind, Except.bind, Pure.pure, Except.pure]
    · simp [buildSources, attrCond_wf a hwfa, hg, ihr, sourcesOf,
        Bind.bind, Except.bind, Pure.pure, Except.pure]

lemma sourcesOf_truthy (attrs : List JValue) :
    ∀ p ∈ sourcesOf attrs, pyTruthy p.1 = true ∧ pyTruthy p.2 = true := by
  intro p hp
  simp only [sourcesOf, List.mem_map, List.mem_filter] at hp
  obtain ⟨a, ⟨_, hg⟩, rfl⟩ := hp
  simp only [attrGood, Bool.and_eq_true] at hg
  exact ⟨hg.2, hg.1⟩

lemma groundingPart_notruthy (cfs : List (String × JValue))
    (h : ∀ g, cfs.lookup "groundingMetadata" = some g → pyTruthy g = false) :
    groundingPart (.obj cfs) = .ok [] := by
  cases hgm : cfs.lookup "groundingMetadata" with
  | none =>
    simp [groundingPart, pyGet, pyGetD, hgm, pyTruthy,
      Bind.bind, Except.bind, Pure.pure, Except.pure]
  | some g =>
    simp [groundingPart, pyGet, pyGetD, hgm, h g hgm,
      Bind.bind, Except.bind, Pure.pure, Except.pure]

lemma groundingPart_attrs (cfs gmfs : List (String × JValue)) (attrs : List JValue)
    (hgm : cfs.lookup "groundingMetadata" = some (.obj gmfs))
    (hga : gmfs.lookup "groundingAttributions" = some (.arr attrs))
    (hwf : ∀ a ∈ attrs, attrWF a) :
    groundingPart (.obj cfs) = .ok (sourcesOf attrs) := by
  cases gmfs with
  | nil => simp at hga
  | cons q qs =>
    cases attrs with
    | nil =>
      simp [groundingPart, pyGet, pyGetD, hgm, hga, pyTruthy, sourcesOf,
        Bind.bind, Except.bind, Pure.pure, Except.pure]
    | cons a rest =>
      simp [groundingPart, pyGet, pyGetD, hgm, hga, pyTruthy, pySubscript, pyIter,
        buildSources_wf _ hwf, Bind.bind, Except.bind, Pure.pure, Except.pure]

lemma extract_structured (fs cfs cofs pfs : List (String × JValue))
    (crest prest : List JValue) (t : JValue)
    (hc : fs.lookup "candidates" = some (.arr (.obj cfs :: crest)))
    (hco : cfs.lookup "content" = some (.obj cofs))
    (hp : cofs.lookup "parts" = some (.arr (.obj pfs :: prest)))
    (ht : pfs.lookup "text" = some t) :
    extractResult (.obj fs) = (do
      let s ← groundingPart (.obj cfs)
      pure (t, s)) := by
  simp [extractResult, pyGetD, pyIndexZero, hc, hco, hp, ht, Bind.bind, Except.bind]

lemma extract_nocand (fs : List (String × JValue))
    (hc : fs.lookup "candidates" = none) :
    extractResult (.obj fs) = .ok (.str "No analysis generated.", []) := by
  simp [extractResult, pyGetD, pyIndexZero, pyGet, groundingPart, pyTruthy, hc,
    Bind.bind, Except.bind, Pure.pure, Except.pure, Functor.map, Except.map]

lemma extract_missing_content (fs cfs : List (String × JValue)) (crest : List JValue)
    (hc : fs.lookup "candidates" = some (.arr (.obj cfs :: crest)))
    (hcont : cfs.lookup "content" = none)
    (hgm : ∀ g, cfs.lookup "groundingMetadata" = some g → pyTruthy g = false) :
    extractResult (.obj fs) = .ok (.str "No analysis generated.", []) := by
  simp [extractResult, pyGetD, pyIndexZero, hc, hcont,
    groundingPart_notruthy cfs hgm, Bind.bind, Except.bind, Pure.pure, Except.pure]

lemma extract_missing_parts (fs cfs cofs : List (String × JValue)) (crest : List JValue)
    (hc : fs.lookup "candidates" = some (.arr (.obj cfs :: crest)))
    (hcont : cfs.lookup "content" = some (.obj cofs))
    (hparts : cofs.lookup "parts" = none)
    (hgm : ∀ g, cfs.lookup "groundingMetadata" = some g → pyTruthy g = false) :
    extractResult (.obj fs) = .ok (.str "No analysis generated.", []) := by
  simp [extractResult, pyGetD, pyIndexZero, hc, hcont, hparts,
    groundingPart_notruthy cfs hgm, Bind.bind, Except.bind, Pure.pure, Except.pure]

lemma extract_empty_cands (fs : List (String × JValue))
    (h : fs.lookup "candidates" = some (.arr [])) :
    extractResult (.obj fs) = .error .indexError := by
  simp [extractResult, pyGetD, pyIndexZero, h, Bind.bind, Except.bind]

lemma extract_empty_parts (fs cfs cofs : List (String × JValue)) (crest : List JValue)
    (hc : fs.lookup "candidates" = some (.arr (.obj cfs :: crest)))
    (hco : cfs.lookup "content" = some (.obj cofs))
    (hp : cofs.lookup "parts" = some (.arr [])) :
    extractResult (.obj fs) = .error .indexError := by
  simp [extractResult, pyGetD, pyIndexZero, hc, hco, hp, Bind.bind, Except.bind]


lemma exAttrs_wf : ∀ a ∈ exAttrs, attrWF a := by
  intro a ha
  simp only [exAttrs, List.mem_cons, List.not_mem_nil, or_false] at ha
  rcases ha with rfl | rfl | rfl
  · exact ⟨_, rfl, Or.inr ⟨_, rfl⟩⟩
  · exact ⟨_, rfl, Or.inr ⟨_, rfl⟩⟩
  · exact ⟨_, rfl, Or.inr ⟨_, rfl⟩⟩


/-! ## Claim theorems: retry-loop behaviour -/

/-- Claim C1, counterexample.  With a status-429 response on every one
of the maxRetries=5 attempts, the call returns the pair
("Error fetching analysis.", []) — produced by the `else` branch of the
HTTPError handler on the final attempt — and not the claimed
"Max retries reached. Could not complete the request." pair, which
differs from it. -/
theorem C1_counterexample :
    fetch_gemini_response env429 5 =
      .ok ⟨.str "Error fetching analysis.", [], .httpFailure, [1, 2, 4, 8], 5⟩ ∧
    "Error fetching analysis." ≠ "Max retries reached. Could not complete the request." :=
  ⟨rfl, by decide⟩

/-- Claim C1, amended: if every one of the maxRetries=5 attempts raises
a transient-failure signal with a retryable status (for example 429 on
every attempt), `fetch_gemini_response` returns exactly
("Error fetching analysis.", []) — after the 4 backoff waits 1, 2, 4, 8
— and performs no further attempts (5 in total); the post-loop
"Max retries reached" message is not produced. -/
theorem C1_amended (env : Nat → AttemptEvent)
    (h : ∀ i, i < 5 → ∃ code ∈ retryableCodes,
      runAttempt (env i) = .error (.httpError code)) :
    fetch_gemini_response env 5 =
      .ok ⟨.str "Error fetching analysis.", [], .httpFailure, [1, 2, 4, 8], 5⟩ := by
  obtain ⟨c0, hm0, h0⟩ := h 0 (by omega)
  obtain ⟨c1, hm1, h1⟩ := h 1 (by omega)
  obtain ⟨c2, hm2, h2⟩ := h 2 (by omega)
  obtain ⟨c3, hm3, h3⟩ := h 3 (by omega)
  obtain ⟨c4, hm4, h4⟩ := h 4 (by omega)
  unfold fetch_gemini_response
  rw [show (5 : Int).toNat = 5 from rfl]
  rw [fetchLoop_retry_step env 5 0 4 [] c0 hm0 h0 (by omega),
    fetchLoop_retry_step env 5 1 3 _ c1 hm1 h1 (by omega),
    fetchLoop_retry_step env 5 2 2 _ c2 hm2 h2 (by omega),
    fetchLoop_retry_step env 5 3 1 _ c3 hm3 h3 (by omega),
    fetchLoop_http_stop env 5 4 0 _ c4 h4 (fun hcon => by omega)]
  rfl

/-- Witness for C1 (amended), at the all-429 environment. -/
theorem C1_witness :
    fetch_gemini_response env429 5 =
      .ok ⟨.str "Error fetching analysis.", [], .httpFailure, [1, 2, 4, 8], 5⟩ :=
  C1_amended env429 (fun _ _ => ⟨429, by decide, rfl⟩)

/-- Claim C2: for every input and every behaviour of the remote
endpoint (any HTTP status, any response body, any fault raised during
an attempt), `fetch_gemini_response` never propagates a raised fault to
its caller: every fault an attempt can raise is an `Exception`
instance, so one of the two handlers catches it, and the caller always
receives a well-formed (text, citations) pair. -/
theorem C2_no_fault_propagation (env : Nat → AttemptEvent) (max_retries : Int) :
    ∃ r : FetchResult, fetch_gemini_response env max_retries = .ok r := by
  unfold fetch_gemini_response
  exact fetchLoop_isOk env max_retries.toNat max_retries.toNat 0 []

/-- Claim C6: if the first attempt yields an HTTPError whose code is
not in the retryable set (for example 404), the call returns
immediately with ("Error fetching analysis.", []), performing zero
backoff waits and exactly one attempt. -/
theorem C6_nonretryable_immediate (env : Nat → AttemptEvent) (m : Int)
    (code : Nat) (hm : 1 ≤ m) (hcode : code ∉ retryableCodes)
    (hrun : runAttempt (env 0) = .error (.httpError code)) :
    fetch_gemini_response env m =
      .ok ⟨.str "Error fetching analysis.", [], .httpFailure, [], 1⟩ := by
  unfold fetch_gemini_response
  obtain ⟨k, hk⟩ := toNat_succ_of_pos m hm
  rw [hk]
  exact fetchLoop_http_stop env (k + 1) 0 k [] code hrun (fun hcon => hcode hcon.2)

/-- Witness for C6, at a status-404 first attempt with maxRetries=5. -/
theorem C6_witness :
    fetch_gemini_response env404 5 =
      .ok ⟨.str "Error fetching analysis.", [], .httpFailure, [], 1⟩ :=
  C6_nonretryable_immediate env404 5 404 (by omega) (by decide) rfl

/-- Claim C9: for every max_retries at least 1, every path through the
loop body either returns or continues, and on the final attempt every
path returns (the retry condition `attempt < max_retries - 1` fails
there); therefore the post-loop return
("Max retries reached. Could not complete the request.", []) is never
produced. -/
theorem C9_exhaustion_unreachable (env : Nat → AttemptEvent) (m : Int)
    (hm : 1 ≤ m) (r : FetchResult)
    (h : fetch_gemini_response env m = .ok r) : r.exitKind ≠ .exhausted := by
  unfold fetch_gemini_response at h
  exact fetchLoop_not_exhausted env m.toNat m.toNat 0 [] r (by omega) (by omega) h

/-- Witness for C9, at the all-429 environment with maxRetries=5. -/
theorem C9_witness :
    (FetchResult.mk (.str "Error fetching analysis.") [] .httpFailure
      [1, 2, 4, 8] 5).exitKind ≠ .exhausted :=
  C9_exhaustion_unreachable env429 5 (by omega) _ rfl

/-- Claim C10: if max_retries is 0 or any non-positive integer,
`range(max_retries)` is empty, so the call performs zero attempts and
zero waits and returns
("Max retries reached. Could not complete the request.", []). -/
theorem C10_nonpositive_retries (env : Nat → AttemptEvent) (m : Int)
    (hm : m ≤ 0) :
    fetch_gemini_response env m =
      .ok ⟨.str "Max retries reached. Could not complete the request.", [],
        .exhausted, [], 0⟩ := by
  unfold fetch_gemini_response
  rw [show m.toNat = 0 by omega]
  rfl

/-- Witness for C10, at max_retries = -3. -/
theorem C10_witness :
    fetch_gemini_response env429 (-3) =
      .ok ⟨.str "Max retries reached. Could not complete the request.", [],
        .exhausted, [], 0⟩ :=
  C10_nonpositive_retries env429 (-3) (by omega)

/-- Claim C3: with maxRetries=5, if attempts 0 through 3 each receive a
status-429 response and attempt 4 receives a status-200 response that
extracts to (t, cs), the call performs exactly the 4 backoff waits
1, 2, 4, 8 (durations 2 ^ attemptIndex), in that order, and returns the
extracted result after the 5th attempt. -/
theorem C3_backoff_waits (env : Nat → AttemptEvent) (t : JValue)
    (cs : List (JValue × JValue))
    (h429 : ∀ i, i < 4 → ∃ b, env i = .httpStatus 429 b)
    (h200 : ∃ b, env 4 = .httpStatus 200 b ∧ extractResult b = .ok (t, cs)) :
    fetch_gemini_response env 5 = .ok ⟨t, cs, .success, [1, 2, 4, 8], 5⟩ := by
  have hr : ∀ i, i < 4 → runAttempt (env i) = .error (.httpError 429) := by
    intro i hi
    obtain ⟨b, hb⟩ := h429 i hi
    rw [hb]
    rfl
  obtain ⟨b4, hb4, he4⟩ := h200
  have hr4 : runAttempt (env 4) = .ok (t, cs) := by
    rw [hb4]
    simp [runAttempt, he4]
  unfold fetch_gemini_response
  rw [show (5 : Int).toNat = 5 from rfl]
  rw [fetchLoop_retry_step env 5 0 4 [] 429 (by decide) (hr 0 (by omega)) (by omega),
    fetchLoop_retry_step env 5 1 3 _ 429 (by decide) (hr 1 (by omega)) (by omega),
    fetchLoop_retry_step env 5 2 2 _ 429 (by decide) (hr 2 (by omega)) (by omega),
    fetchLoop_retry_step env 5 3 1 _ 429 (by decide) (hr 3 (by omega)) (by omega),
    fetchLoop_success_step env 5 4 0 _ t cs hr4]
  rfl

/-- Witness for C3, at the environment answering 429 on attempts 0..3
and a canonical well-formed body on attempt 4. -/
theorem C3_witness :
    fetch_gemini_response envC3 5 =
      .ok ⟨.str "Analysis text.", sourcesOf exAttrs, .success, [1, 2, 4, 8], 5⟩ :=
  C3_backoff_waits envC3 (.str "Analysis text.") (sourcesOf exAttrs)
    (fun i hi => ⟨.null, by simp [envC3, hi]⟩)
    ⟨mkBody "Analysis text." exAttrs, by simp [envC3], rfl⟩

/-- Claim C4, counterexample.  The body `c4body` is a status-200
response whose first candidate lacks "content" — in the claim's scope —
yet because that candidate still carries grounding attributions, the
call returns the placeholder answer together with a NON-empty citation
list, not the empty list the claim asserts. -/
theorem C4_counterexample :
    fetch_gemini_response (fun _ => .httpStatus 200 c4body) 5 =
      .ok ⟨.str "No analysis generated.", [(.str "A", .str "u")], .success, [], 1⟩ ∧
    ([(JValue.str "A", JValue.str "u")] : List (JValue × JValue)) ≠ [] :=
  ⟨rfl, by simp⟩

/-- Claim C4, amended: for every status-200 response whose JSON body
lacks "candidates", or whose first candidate is an object lacking
"content", or whose first candidate's "content" is an object lacking
"parts", AND whose first candidate carries no truthy groundingMetadata
entry, the call returns the literal placeholder "No analysis generated."
and an empty citation list, without raising any fault.  (Without the
added grounding condition the placeholder still appears, but the
citation list is extracted from the candidate's grounding attributions
as on the success path and can be non-empty, as the counterexample
shows.) -/
theorem C4_missing_fields_default (body : JValue) (m : Int) (hm : 1 ≤ m)
    (h : missingPieces body) (hgm : noGrounding body) :
    fetch_gemini_response (fun _ => .httpStatus 200 body) m =
      .ok ⟨.str "No analysis generated.", [], .success, [], 1⟩ := by
  obtain ⟨fs, rfl, hcase⟩ := h
  have hx : extractResult (.obj fs) = .ok (.str "No analysis generated.", []) := by
    rcases hcase with hnone | ⟨cfs, crest, hc, hcase2⟩
    · exact extract_nocand fs hnone
    · have hgm2 : ∀ g, cfs.lookup "groundingMetadata" = some g → pyTruthy g = false :=
        fun g hg => hgm fs cfs crest rfl hc g hg
      rcases hcase2 with hcont | ⟨cofs, hcont, hparts⟩
      · exact extract_missing_content fs cfs crest hc hcont hgm2
      · exact extract_missing_parts fs cfs cofs crest hc hcont hparts hgm2
  apply fetch_first_success _ m hm
  simp [runAttempt, hx]

/-- Witness for C4 (amended), at the empty-object body, which lacks
"candidates". -/
theorem C4_witness :
    fetch_gemini_response (fun _ => .httpStatus 200 (.obj [])) 1 =
      .ok ⟨.str "No analysis generated.", [], .success, [], 1⟩ :=
  C4_missing_fields_default (.obj []) 1 (by omega) ⟨[], rfl, Or.inl rfl⟩
    (by
      intro fs cfs crest hb hc g hg
      injection hb with h2
      subst h2
      simp at hc)

/-- Claim C5: on success the citation list is exactly the attributions
whose web title and web uri are both present and non-empty (truthy), as
a subsequence in the order returned by the service, each mapped to its
(title, uri) pair; and on the spec's three-attribution example the
result keeps only the first attribution, so it is the singleton list
[("A", "u1")] of length 1. -/
theorem C5_citation_filter (t : String) (attrs : List JValue) (m : Int)
    (hm : 1 ≤ m) (hwf : ∀ a ∈ attrs, attrWF a) :
    fetch_gemini_response (fun _ => .httpStatus 200 (mkBody t attrs)) m =
      .ok ⟨.str t, sourcesOf attrs, .success, [], 1⟩ ∧
    sourcesOf exAttrs = [(.str "A", .str "u1")] := by
  constructor
  · apply fetch_first_success _ m hm
    have hx : extractResult (mkBody t attrs) = .ok (.str t, sourcesOf attrs) := by
      rw [mkBody]
      rw [extract_structured _ (mkCand t attrs) [("parts", .arr [.obj (mkPart t)])]
        (mkPart t) [] [] (.str t) (by simp) (by simp [mkCand]) (by simp)
        (by simp [mkPart])]
      rw [groundingPart_attrs (mkCand t attrs) [("groundingAttributions", .arr attrs)]
        attrs rfl (by simp) hwf]
      simp [Bind.bind, Except.bind, Pure.pure, Except.pure]
    simp [runAttempt, hx]
  · rfl

/-- Witness for C5, at the spec's three-attribution example. -/
theorem C5_witness :
    fetch_gemini_response (fun _ => .httpStatus 200 (mkBody "Summary." exAttrs)) 1 =
      .ok ⟨.str "Summary.", sourcesOf exAttrs, .success, [], 1⟩ ∧
    sourcesOf exAttrs = [(.str "A", .str "u1")] :=
  C5_citation_filter "Summary." exAttrs 1 (by omega) exAttrs_wf

/-- Claim C7: for every status-200 response containing a well-formed
first candidate — candidates nonempty, its first element an object with
object content, nonempty parts whose first element is an object with a
string "text", and fault-free grounding metadata — the call returns the
first candidate's first text part unchanged as the answer, and every
entry of the returned citation list has truthy (non-empty) title and
uri. -/
theorem C7_wellformed_success (fs cfs cofs pfs : List (String × JValue))
    (crest prest : List JValue) (t : String) (m : Int) (hm : 1 ≤ m)
    (hc : fs.lookup "candidates" = some (.arr (.obj cfs :: crest)))
    (hco : cfs.lookup "content" = some (.obj cofs))
    (hp : cofs.lookup "parts" = some (.arr (.obj pfs :: prest)))
    (ht : pfs.lookup "text" = some (.str t))
    (hgm : gmWellFormed cfs) :
    ∃ cs, fetch_gemini_response (fun _ => .httpStatus 200 (.obj fs)) m =
        .ok ⟨.str t, cs, .success, [], 1⟩ ∧
      ∀ p ∈ cs, pyTruthy p.1 = true ∧ pyTruthy p.2 = true := by
  have hgp : ∃ attrs, (∀ a ∈ attrs, attrWF a) ∧
      groundingPart (.obj cfs) = .ok (sourcesOf attrs) := by
    rcases hgm with h | ⟨gmfs, attrs, h1, h2, h3⟩
    · exact ⟨[], by simp, groundingPart_notruthy cfs h⟩
    · exact ⟨attrs, h3, groundingPart_attrs cfs gmfs attrs h1 h2 h3⟩
  obtain ⟨attrs, hwf, hgp⟩ := hgp
  refine ⟨sourcesOf attrs, ?_, sourcesOf_truthy attrs⟩
  apply fetch_first_success _ m hm
  have hx : extractResult (.obj fs) = .ok (.str t, sourcesOf attrs) := by
    rw [extract_structured fs cfs cofs pfs crest prest (.str t) hc hco hp ht, hgp]
    rfl
  simp [runAttempt, hx]

/-- Witness for C7, at the canonical well-formed body built over the
three-attribution example. -/
theorem C7_witness :
    ∃ cs, fetch_gemini_response
        (fun _ => .httpStatus 200 (.obj [("candidates",
          .arr [.obj (mkCand "Hello." exAttrs)])])) 1 =
        .ok ⟨.str "Hello.", cs, .success, [], 1⟩ ∧
      ∀ p ∈ cs, pyTruthy p.1 = true ∧ pyTruthy p.2 = true :=
  C7_wellformed_success [("candidates", .arr [.obj (mkCand "Hello." exAttrs)])]
    (mkCand "Hello." exAttrs) [("parts", .arr [.obj (mkPart "Hello.")])]
    (mkPart "Hello.") [] [] "Hello." 1 (by omega)
    (by simp) (by simp [mkCand]) (by simp) (by simp [mkPart])
    (Or.inr ⟨[("groundingAttributions", .arr exAttrs)], exAttrs,
      rfl, by simp, exAttrs_wf⟩)

/-- Claim C8: if a status-200 response's body has "candidates" equal to
the empty list, or a first candidate whose "content.parts" is the empty
list, the extraction raises IndexError; the generic `except Exception`
handler catches it and the call returns ("Error fetching analysis.", [])
— not the placeholder "No analysis generated.". -/
theorem C8_empty_list_index_error (body : JValue) (m : Int) (hm : 1 ≤ m)
    (h : emptyShape body) :
    extractResult body = .error .indexError ∧
    fetch_gemini_response (fun _ => .httpStatus 200 body) m =
      .ok ⟨.str "Error fetching analysis.", [], .excFailure, [], 1⟩ := by
  obtain ⟨fs, rfl, hcase⟩ := h
  have hx : extractResult (.obj fs) = .error .indexError := by
    rcases hcase with h1 | ⟨cfs, crest, cofs, h1, h2, h3⟩
    · exact extract_empty_cands fs h1
    · exact extract_empty_parts fs cfs cofs crest h1 h2 h3
  refine ⟨hx, ?_⟩
  apply fetch_first_exc _ m hm (.exc .indexError) ?_ rfl
  simp [runAttempt, hx]

/-- Witness for C8, at the body with an empty candidates list. -/
theorem C8_witness :
    extractResult (.obj [("candidates", .arr [])]) = .error .indexError ∧
    fetch_gemini_response
        (fun _ => .httpStatus 200 (.obj [("candidates", .arr [])])) 1 =
      .ok ⟨.str "Error fetching analysis.", [], .excFailure, [], 1⟩ :=
  C8_empty_list_index_error (.obj [("candidates", .arr [])]) 1 (by omega)
    ⟨[("candidates", .arr [])], rfl, Or.inl (by simp)⟩

end FinancialAnalyzer

